import Mathlib

/-!
Verification of the schedule backend (week/date computation, recurring-lesson
generation, day-schedule replacement, bulk week operations and audit logging).

The JavaScript source is shallowly embedded:
* a JS `Date` is modelled as a local-calendar day number (days since
  1970-01-01) plus milliseconds within the day; `Math.floor` division is
  `Int.fdiv`, JS `getDay` is day-number arithmetic mod 7 (1970-01-01 was a
  Thursday);
* the calendar conversions year/month/day <-> day number implement the
  standard proleptic-Gregorian civil-date algorithms (the behaviour of the
  JS runtime's `Date`);
* the PostgreSQL tables are lists of rows; a transaction either commits its
  final row list or, on rollback, leaves the original list;
* fallible paths return the same HTTP-level responses the handlers send.
-/

/-! ### Civil calendar (the behaviour of the JS runtime's Date) -/

/-- Day number (days since 1970-01-01) of a civil date; `m` is 1..12. -/
def daysFromCivil (y m d : Int) : Int :=
  let y2 := if m ≤ 2 then y - 1 else y
  let era := y2.fdiv 400
  let yoe := y2 - era * 400
  let mp := if m > 2 then m - 3 else m + 9
  let doy := (153 * mp + 2).fdiv 5 + d - 1
  let doe := yoe * 365 + yoe.fdiv 4 - yoe.fdiv 100 + doy
  era * 146097 + doe - 719468

/-- Civil date (year, month 1..12, day 1..31) of a day number. -/
def civilFromDays (z : Int) : Int × Int × Int :=
  let z2 := z + 719468
  let era := z2.fdiv 146097
  let doe := z2 - era * 146097
  let yoe := (doe - doe.fdiv 1460 + doe.fdiv 36524 - doe.fdiv 146096).fdiv 365
  let y := yoe + era * 400
  let doy := doe - (365 * yoe + yoe.fdiv 4 - yoe.fdiv 100)
  let mp := (5 * doy + 2).fdiv 153
  let d := doy - (153 * mp + 2).fdiv 5 + 1
  let m := if mp < 10 then mp + 3 else mp - 9
  (if m ≤ 2 then y + 1 else y, m, d)

/-- A JS `Date` value: local calendar day number and milliseconds within the
day (`setHours(0,0,0,0)` zeroes `msOfDay`). -/
structure JSDate where
  epochDay : Int
  msOfDay : Int
deriving DecidableEq

/-- Millisecond value of a date (`date.getTime()`, local clock). -/
def msVal (dt : JSDate) : Int := dt.epochDay * 86400000 + dt.msOfDay

/-- JS `getDay()` of a raw day number: 0 = Sunday .. 6 = Saturday. -/
def jsGetDayOfDay (z : Int) : Int := (z + 4) % 7

/-- JS `date.getDay()`. -/
def jsGetDay (dt : JSDate) : Int := jsGetDayOfDay dt.epochDay

/-- JS `date.getFullYear()`. -/
def jsGetFullYear (dt : JSDate) : Int := (civilFromDays dt.epochDay).1

/-- JS `date.getMonth()` (0-indexed). -/
def jsGetMonth (dt : JSDate) : Int := (civilFromDays dt.epochDay).2.1 - 1

/-- JS `d.setDate(d.getDate() + k)`: shift by `k` calendar days. -/
def addDays (dt : JSDate) (k : Int) : JSDate := { dt with epochDay := dt.epochDay + k }

/-- JS `new Date(year, monthIndex, day)` (local midnight). -/
def mkLocalDate (y monthIndex d : Int) : JSDate :=
  { epochDay := daysFromCivil y (monthIndex + 1) d, msOfDay := 0 }

/-- `String.padStart(2, "0")` on a decimal number. -/
def pad2 (n : Int) : String :=
  let s := toString n
  if s.length < 2 then "0" ++ s else s

/-- `formatLocalDate` from week.service.js: "YYYY-MM-DD" of the local calendar day. -/
def formatLocalDate (dt : JSDate) : String :=
  let c := civilFromDays dt.epochDay
  toString c.1 ++ "-" ++ pad2 c.2.1 ++ "-" ++ pad2 c.2.2

/-! ### week.service.js -/

/-- Result record of `getWeekInfo`. -/
structure WeekInfo where
  weekNumber : Int
  isEven : Bool
  weekType : String
  weekStart : String
  weekEnd : String
deriving DecidableEq

/-- The academic-year start used by `getWeekInfo`: September 1 of the current
year when `now`'s month is ≥ September, else of the previous year. -/
def academicYearStartOf (now : JSDate) : JSDate :=
  let year := if jsGetMonth now ≥ 8 then jsGetFullYear now else jsGetFullYear now - 1
  mkLocalDate year 8 1

/-- The Monday-aligned week start computed by `getWeekInfo`: shift `now` by
`weekOffset * 7` days, then move back to Monday
(`diffToMonday = dayOfWeek == 0 ? -6 : 1 - dayOfWeek`). -/
def weekStartDate (now : JSDate) (weekOffset : Int) : JSDate :=
  let targetDate := addDays now (weekOffset * 7)
  let dayOfWeek := jsGetDay targetDate
  let diffToMonday := if dayOfWeek == 0 then -6 else 1 - dayOfWeek
  addDays targetDate diffToMonday

/-- `getWeekInfo(weekOffset)` from week.service.js, with the ambient
`new Date()` passed explicitly as `now`. -/
def getWeekInfo (now : JSDate) (weekOffset : Int) : WeekInfo :=
  let academicYearStart := academicYearStartOf now
  let weekStart := weekStartDate now weekOffset
  let weekEnd := addDays weekStart 6
  let diffDays := (msVal weekStart - msVal academicYearStart).fdiv 86400000
  let weekNumber := diffDays.fdiv 7 + 1
  { weekNumber := weekNumber
    isEven := weekNumber % 2 == 0
    weekType := if weekNumber % 2 == 0 then "чётная" else "нечётная"
    weekStart := formatLocalDate weekStart
    weekEnd := formatLocalDate weekEnd }

/-! ### generator.service.js -/

/-- `SEMESTER_START = new Date('2023-09-01')`. -/
def SEMESTER_START : JSDate := { epochDay := daysFromCivil 2023 9 1, msOfDay := 0 }

/-- `SEMESTER_END = new Date('2023-12-31')`. -/
def SEMESTER_END : JSDate := { epochDay := daysFromCivil 2023 12 31, msOfDay := 0 }

/-- `getWeekNumber(d)` from generator.service.js: ISO-8601 week number of the
day `z` (shift to the Thursday of the week, count from January 1, ceil-divide
by 7; `Math.ceil(a / 7)` for integer `a` is `-((-a).fdiv 7)`). -/
def getWeekNumber (z : Int) : Int :=
  let w := jsGetDayOfDay z
  let thursday := z + 4 - (if w == 0 then 7 else w)
  let yearStart := daysFromCivil (civilFromDays thursday).1 1 1
  let diff := thursday - yearStart + 1
  Neg.neg ((Neg.neg diff).fdiv 7)

/-- The days scanned by `generateDates`'s while-loop: every calendar day from
`SEMESTER_START` to `SEMESTER_END` inclusive. -/
def semesterDays : List Int :=
  (List.range (SEMESTER_END.epochDay - SEMESTER_START.epochDay + 1).toNat).map
    (fun i => SEMESTER_START.epochDay + i)

/-- The `match` flag of `generateDates`: weekType 0 = any week, 1 = even weeks,
2 = odd weeks. -/
def matchWeekType (weekType : Int) (isEven : Bool) : Bool :=
  if weekType = 0 then true
  else if weekType = 1 then isEven
  else if weekType = 2 then !isEven
  else false

/-- `generateDates(dayOfWeek, weekType)` from generator.service.js:
`dayOfWeek` is 0 = Monday .. 5 = Saturday (shifted to JS `getDay` by +1). -/
def generateDates (dayOfWeek weekType : Int) : List Int :=
  semesterDays.filter (fun z =>
    jsGetDayOfDay z == dayOfWeek + 1
      && matchWeekType weekType (getWeekNumber z % 2 == 0))

/-! ### JS values and audit.service.js

`logChange` in audit.service.js destructures a single options object; the
callers in admin.controller.js instead pass positional arguments, so the
first positional argument (a number) becomes the destructuring target.
`JVal` models the JS values involved and `getProp` models property access
(a property access on a non-object primitive yields `undefined`, here
`none`). -/

/-- A JavaScript value (as far as the audit payloads need). -/
inductive JVal where
  | jnum : Int → JVal
  | jstr : String → JVal
  | jnull : JVal
  | jarr : List JVal → JVal
  | jobj : List (String × JVal) → JVal

/-- Property lookup in a JS object literal (first binding wins). -/
def lookupField : List (String × JVal) → String → Option JVal
  | [], _ => none
  | (k, v) :: rest, key => if k == key then some v else lookupField rest key

/-- JS property access `arg[key]`: `undefined` (`none`) unless `arg` is an
object with that property. -/
def getProp : JVal → String → Option JVal
  | .jobj fields, key => lookupField fields key
  | _, _ => none

/-- JS truthiness of a value. -/
def jsTruthy : JVal → Bool
  | .jnull => false
  | .jnum n => n != 0
  | .jstr s => !s.isEmpty
  | .jarr _ => true
  | .jobj _ => true

/-- A row of the `schedule_changes` table; `none` is SQL NULL (node-postgres
sends both JS `undefined` and JS `null` as NULL). -/
structure AuditRow where
  admin_id : Option JVal
  action_type : Option JVal
  target_type : Option JVal
  target_id : Option JVal
  old_value : Option JVal
  new_value : Option JVal

/-- The SQL parameter a possibly-undefined JS value is sent as. -/
def sqlParam : Option JVal → Option JVal
  | some .jnull => none
  | o => o

/-- `logChange` from audit.service.js: destructures its single argument as
`\x7b adminId, actionType, targetType, targetId = null, oldValue = null,
newValue = null \x7d` and appends one row to `schedule_changes`
(`JSON.stringify` of a snapshot is modelled as the snapshot itself). -/
def logChange (arg : JVal) (audit : List AuditRow) : List AuditRow :=
  let oldValue := (getProp arg "oldValue").getD .jnull
  let newValue := (getProp arg "newValue").getD .jnull
  audit ++ [{ admin_id := sqlParam (getProp arg "adminId")
              action_type := sqlParam (getProp arg "actionType")
              target_type := sqlParam (getProp arg "targetType")
              target_id := sqlParam (some ((getProp arg "targetId").getD .jnull))
              old_value := if jsTruthy oldValue then some oldValue else none
              new_value := if jsTruthy newValue then some newValue else none }]

/-! ### HTTP responses -/

/-- The responses the handlers send (status plus the `message` field). -/
inductive Response where
  | forbidden : String → Response
  | badRequest : String → Response
  | notFound : String → Response
  | serverError : String → Response
  | ok : String → Response
deriving DecidableEq

/-- The spec's error taxonomy maps ValidationError to the 400 Bad Request
responses of the handlers. -/
def isValidationError : Response → Bool
  | .badRequest _ => true
  | _ => false

/-! ### scheduleDay controller (`updateScheduleByDay`, src/unnamed/part_000) -/

/-- One entry of the request's `lessons` array; absent fields are `none`. -/
structure LessonInput where
  start_time : Option String
  end_time : Option String
  subject : Option String
  teacher_id : Option Int
  room : Option String
  type : Option String
deriving DecidableEq

/-- A row of the `lessons` table in date mode (the stored field values;
the surrogate id is not part of any claim). -/
structure LessonRow where
  group_id : Int
  lesson_date : String
  start_time : String
  end_time : String
  subject : String
  teacher_id : Option Int
  room : String
  type : String
deriving DecidableEq

/-- The persistent state `updateScheduleByDay` touches. -/
structure ScheduleDb where
  lessons : List LessonRow
  audit : List AuditRow

/-- The request body (plus the authenticated actor from `req.user`). -/
structure DayRequest where
  role : String
  userId : Int
  date : Option String
  groupId : Option Int
  lessons : Option (List LessonInput)

/-- JS `String.prototype.trim()` (kernel-computable model of `String.trim`):
drop leading and trailing whitespace. -/
def jsTrim (s : String) : String :=
  ⟨((s.data.dropWhile Char.isWhitespace).reverse.dropWhile Char.isWhitespace).reverse⟩

/-- JS truthiness of a possibly-absent string (`undefined`, `null` and `""`
are falsy). -/
def truthyStr : Option String → Bool
  | none => false
  | some s => !s.isEmpty

/-- JS truthiness of a possibly-absent number (`undefined`, `null` and `0`
are falsy). -/
def truthyNum : Option Int → Bool
  | none => false
  | some n => n != 0

/-- The malformed-entry check in the insert loop: `!start_time || !end_time
|| !subject || !room || !type` throws; `teacher_id` is not checked. -/
def lessonValid (l : LessonInput) : Bool :=
  truthyStr l.start_time && truthyStr l.end_time && truthyStr l.subject
    && truthyStr l.room && truthyStr l.type

/-- JS `teacher_id || null`. -/
def jsOrNull : Option Int → Option Int
  | none => none
  | some n => if n == 0 then none else some n

/-- The row the INSERT statement stores for one lesson entry. -/
def rowOfLesson (groupId : Int) (date : String) (l : LessonInput) : LessonRow :=
  { group_id := groupId
    lesson_date := date
    start_time := l.start_time.getD ""
    end_time := l.end_time.getD ""
    subject := l.subject.getD ""
    teacher_id := jsOrNull l.teacher_id
    room := l.room.getD ""
    type := l.type.getD "" }

/-- The WHERE clause `lesson_date = $1 AND group_id = $2`. -/
def matchesDay (date : String) (groupId : Int) (r : LessonRow) : Bool :=
  r.lesson_date == date && r.group_id == groupId

/-- The insert loop of the transaction, processing the entries in order:
a malformed entry throws, and `failAt = some i` injects a database error on
the `i`-th INSERT (any error aborts the whole transaction). On success it
returns the rows inserted. -/
def insertLessons (groupId : Int) (date : String) (failAt : Option Nat) :
    List LessonInput → Nat → Except Unit (List LessonRow)
  | [], _ => .ok []
  | l :: rest, i =>
    if !lessonValid l then .error ()
    else if failAt == some i then .error ()
    else
      match insertLessons groupId date failAt rest (i + 1) with
      | .error e => .error e
      | .ok rows => .ok (rowOfLesson groupId date l :: rows)

/-- The comparison `scheduleDate < today` on day-zeroed dates: an invalid
date (`none`, JS `NaN`) compares false. -/
def jsDateLtDay : Option Int → Int → Bool
  | some d, today => d < today
  | none, _ => false

/-- JS value of a possibly-absent string field in an audit snapshot. -/
def optStrJ : Option String → JVal
  | none => .jnull
  | some s => .jstr s

/-- JS value of a possibly-absent number field in an audit snapshot. -/
def optIntJ : Option Int → JVal
  | none => .jnull
  | some n => .jnum n

/-- The audit snapshot of one stored lesson row. -/
def lessonRowToJVal (r : LessonRow) : JVal :=
  .jobj [("group_id", .jnum r.group_id), ("lesson_date", .jstr r.lesson_date),
         ("start_time", .jstr r.start_time), ("end_time", .jstr r.end_time),
         ("subject", .jstr r.subject), ("teacher_id", optIntJ r.teacher_id),
         ("room", .jstr r.room), ("type", .jstr r.type)]

/-- The audit snapshot of one request lesson entry. -/
def lessonInputToJVal (l : LessonInput) : JVal :=
  .jobj [("start_time", optStrJ l.start_time), ("end_time", optStrJ l.end_time),
         ("subject", optStrJ l.subject), ("teacher_id", optIntJ l.teacher_id),
         ("room", optStrJ l.room), ("type", optStrJ l.type)]

/-- `updateScheduleByDay` (PUT /api/schedule/day, src/unnamed/part_000).
`parseDate` is the ambient `new Date(string)` parser reduced to the local
calendar day (`none` when the string parses to an Invalid Date), `today` the
current local calendar day, `failAt` an optional injected INSERT failure.
Returns the response and the resulting persistent state; the catch branch
issues ROLLBACK, so the state reverts to `db` there. -/
def updateScheduleByDay (parseDate : String → Option Int) (today : Int)
    (req : DayRequest) (db : ScheduleDb) (failAt : Option Nat) :
    Response × ScheduleDb :=
  if req.role != "admin" then
    (.forbidden "Только администратор может редактировать расписание", db)
  else if !truthyStr req.date || !truthyNum req.groupId || req.lessons.isNone then
    (.badRequest "date, groupId и lessons обязательны", db)
  else
    let date := req.date.getD ""
    let groupId := req.groupId.getD 0
    let lessons := req.lessons.getD []
    let scheduleDate := parseDate date
    if jsDateLtDay scheduleDate today then
      (.badRequest "Нельзя редактировать расписание прошедших дат", db)
    else
      let oldLessons := db.lessons.filter (matchesDay date groupId)
      let kept := db.lessons.filter (fun r => !matchesDay date groupId r)
      match insertLessons groupId date failAt lessons 0 with
      | .error _ => (.serverError "Ошибка сервера при сохранении расписания", db)
      | .ok newRows =>
        let committed : ScheduleDb := { lessons := kept ++ newRows, audit := db.audit }
        let auditArg : JVal := .jobj
          [("adminId", .jnum req.userId),
           ("actionType", .jstr "update_schedule_day"),
           ("targetType", .jstr "schedule_day"),
           ("targetId", .jnull),
           ("oldValue", .jobj [("date", .jstr date),
             ("lessons", .jarr (oldLessons.map lessonRowToJVal))]),
           ("newValue", .jobj [("date", .jstr date), ("groupId", .jnum groupId),
             ("lessons", .jarr (lessons.map lessonInputToJVal))])]
        let audited : ScheduleDb :=
          { committed with audit := logChange auditArg committed.audit }
        (.ok "Расписание на день успешно сохранено", audited)

/-! ### admin.controller.js bulk operations (legacy template schema) -/

/-- A row of the legacy `lessons` template schema: day-of-week plus a week
(parity) tag and a denormalized teacher name. -/
structure TemplateRow where
  group_id : Int
  day : Int
  start_time : String
  end_time : String
  subject : String
  teacher : String
  room : String
  type : String
  week : Int
deriving DecidableEq

/-- The persistent state the bulk operations touch. -/
structure TemplateDb where
  templates : List TemplateRow
  audit : List AuditRow

/-- Request body of `copyWeek` plus the acting admin. -/
structure CopyWeekRequest where
  userId : Int
  group_id : Option Int
  from_week : Option Int
  to_week : Option Int

/-- Request body of `clearWeek` plus the acting admin. -/
structure ClearWeekRequest where
  userId : Int
  group_id : Option Int
  week : Option Int

/-- Request body of `replaceTeacher` plus the acting admin. -/
structure ReplaceTeacherRequest where
  userId : Int
  group_id : Option Int
  old_teacher : Option String
  new_teacher : Option String

/-- `copyWeek` (POST /api/admin/lessons/copy-week, admin.controller.js).
It SELECTs the source templates, DELETEs the target week, then runs an
INSERT..SELECT that re-reads the `lessons` table (after the delete) for the
source week. `logChange` is called with positional arguments, so it receives
the admin id number as its destructuring target. -/
def copyWeek (req : CopyWeekRequest) (db : TemplateDb) : Response × TemplateDb :=
  if !truthyNum req.group_id || req.from_week.isNone || req.to_week.isNone then
    (.badRequest "Укажите group_id, from_week и to_week", db)
  else
    let g := req.group_id.getD 0
    let fromWeek := req.from_week.getD 0
    let toWeek := req.to_week.getD 0
    let source := db.templates.filter (fun r => r.group_id == g && r.week == fromWeek)
    if source.length == 0 then
      (.notFound "Нет занятий для копирования", db)
    else
      let afterDelete := db.templates.filter
        (fun r => !(r.group_id == g && r.week == toWeek))
      let copied := (afterDelete.filter
          (fun r => r.group_id == g && r.week == fromWeek)).map
        (fun r => { r with week := toWeek })
      let db1 : TemplateDb := { templates := afterDelete ++ copied, audit := db.audit }
      let db2 : TemplateDb := { db1 with audit := logChange (JVal.jnum req.userId) db1.audit }
      (.ok ("Неделя скопирована (week " ++ toString fromWeek ++ " → "
        ++ toString toWeek ++ ")"), db2)

/-- `clearWeek` (DELETE /api/admin/lessons/clear-week, admin.controller.js):
deletes all templates of `(group_id, week)`, logging (positionally) only when
the deleted count is positive. -/
def clearWeek (req : ClearWeekRequest) (db : TemplateDb) : Response × TemplateDb :=
  if !truthyNum req.group_id || req.week.isNone then
    (.badRequest "Укажите group_id и week", db)
  else
    let g := req.group_id.getD 0
    let week := req.week.getD 0
    let deletedLessons := db.templates.filter (fun r => r.group_id == g && r.week == week)
    let kept := db.templates.filter (fun r => !(r.group_id == g && r.week == week))
    let db1 : TemplateDb := { templates := kept, audit := db.audit }
    let db2 : TemplateDb :=
      if deletedLessons.length > 0 then
        { db1 with audit := logChange (JVal.jnum req.userId) db1.audit }
      else db1
    (.ok ("Удалено " ++ toString deletedLessons.length ++ " занятий"), db2)

/-- `replaceTeacher` (PATCH /api/admin/lessons/replace-teacher,
admin.controller.js): rewrites the denormalized teacher name on every
template of the group matching the trimmed old name, logging (positionally)
only when the updated count is positive. -/
def replaceTeacher (req : ReplaceTeacherRequest) (db : TemplateDb) :
    Response × TemplateDb :=
  if !truthyNum req.group_id || !truthyStr req.old_teacher
      || !truthyStr req.new_teacher then
    (.badRequest "Укажите group_id, old_teacher и new_teacher", db)
  else
    let g := req.group_id.getD 0
    let oldT := jsTrim (req.old_teacher.getD "")
    let newT := jsTrim (req.new_teacher.getD "")
    let affected := db.templates.filter (fun r => r.group_id == g && r.teacher == oldT)
    let updated := db.templates.map (fun r =>
      if r.group_id == g && r.teacher == oldT then { r with teacher := newT } else r)
    let db1 : TemplateDb := { templates := updated, audit := db.audit }
    let db2 : TemplateDb :=
      if affected.length > 0 then
        { db1 with audit := logChange (JVal.jnum req.userId) db1.audit }
      else db1
    (.ok ("Заменено " ++ toString affected.length ++ " занятий"), db2)

/-! ### Concrete instances used by the claim-level results -/

/-- A lesson template of group 1 tagged week 1. -/
def c2row : TemplateRow :=
  { group_id := 1, day := 0, start_time := "08:00", end_time := "09:30",
    subject := "Математика", teacher := "Иванов", room := "101",
    type := "lecture", week := 1 }

/-- A template table holding exactly `c2row`. -/
def c2db : TemplateDb := { templates := [c2row], audit := [] }

/-- `copyWeek` request with `from_week = to_week = 1` by admin 7. -/
def c2req : CopyWeekRequest :=
  { userId := 7, group_id := some 1, from_week := some 1, to_week := some 1 }

/-- A lesson template of group 1 tagged week 1 (for the audit claims). -/
def c7row : TemplateRow :=
  { group_id := 1, day := 2, start_time := "10:00", end_time := "11:30",
    subject := "Физика", teacher := "Иванов", room := "202",
    type := "practice", week := 1 }

/-- A template table holding exactly `c7row`. -/
def c7db : TemplateDb := { templates := [c7row], audit := [] }

/-- `copyWeek` request (week 1 to week 2) by admin 7. -/
def c7copyReq : CopyWeekRequest :=
  { userId := 7, group_id := some 1, from_week := some 1, to_week := some 2 }

/-- `clearWeek` request (week 1) by admin 7. -/
def c7clearReq : ClearWeekRequest :=
  { userId := 7, group_id := some 1, week := some 1 }

/-- `replaceTeacher` request by admin 7. -/
def c7replReq : ReplaceTeacherRequest :=
  { userId := 7, group_id := some 1, old_teacher := some "Иванов",
    new_teacher := some "Петров" }

/-- `new Date()` taken on 2023-09-01 at local midnight. -/
def c6now : JSDate := { epochDay := daysFromCivil 2023 9 1, msOfDay := 0 }

/-- A well-formed lesson entry. -/
def c1goodLesson : LessonInput :=
  { start_time := some "08:00", end_time := some "09:30",
    subject := some "Математика", teacher_id := none,
    room := some "101", type := some "lecture" }

/-- A malformed lesson entry (subject missing). -/
def c1badLesson : LessonInput :=
  { start_time := some "10:00", end_time := some "11:30",
    subject := none, teacher_id := none,
    room := some "102", type := some "practice" }

/-- A pre-existing stored row for group 1 on 2099-01-01. -/
def c1oldRow : LessonRow :=
  { group_id := 1, lesson_date := "2099-01-01",
    start_time := "12:00", end_time := "13:30", subject := "История",
    teacher_id := none, room := "5", type := "lecture" }

/-- A lessons table holding exactly `c1oldRow`. -/
def c1db : ScheduleDb := { lessons := [c1oldRow], audit := [] }

/-- Admin request for 2099-01-01 whose second lesson entry is malformed. -/
def c1req : DayRequest :=
  { role := "admin", userId := 1, date := some "2099-01-01",
    groupId := some 1, lessons := some [c1goodLesson, c1badLesson] }

/-- Date parser: 2099-01-01 is local day 47119, anything else invalid. -/
def c1parse : String → Option Int :=
  fun s => if s == "2099-01-01" then some 47119 else none

/-- Admin request for 2099-01-01 with one well-formed lesson entry. -/
def c3req : DayRequest :=
  { role := "admin", userId := 1, date := some "2099-01-01",
    groupId := some 1, lessons := some [c1goodLesson] }

/-- Request whose lessons list contains only the malformed entry. -/
def c5req : DayRequest :=
  { role := "admin", userId := 1, date := some "2099-01-01",
    groupId := some 1, lessons := some [c1badLesson] }

/-- Date parser that fails on every string (every date is an Invalid Date). -/
def c10parse : String → Option Int := fun _ => none

/-! ### Helper lemmas -/

/-- Every row returned by a successful insert loop carries the requested
`(lesson_date, group_id)` pair. -/
theorem insertLessons_ok_all_match (groupId : Int) (date : String)
    (failAt : Option Nat) (ls : List LessonInput) (i : Nat)
    (rows : List LessonRow)
    (h : insertLessons groupId date failAt ls i = .ok rows) :
    ∀ r ∈ rows, matchesDay date groupId r = true := by
  induction ls generalizing i rows with
  | nil =>
    simp only [insertLessons] at h
    cases h
    intro r hr
    cases hr
  | cons l rest ih =>
    simp only [insertLessons] at h
    by_cases hv : (!lessonValid l) = true
    · rw [if_pos hv] at h; cases h
    · rw [if_neg hv] at h
      by_cases hf : (failAt == some i) = true
      · rw [if_pos hf] at h; cases h
      · rw [if_neg hf] at h
        cases heq : insertLessons groupId date failAt rest (i + 1) with
        | error e => rw [heq] at h; cases h
        | ok rows0 =>
          rw [heq] at h
          cases h
          intro r hr
          rcases List.mem_cons.mp hr with hr0 | hr1
          · subst hr0
            simp [rowOfLesson, matchesDay]
          · exact ih (i + 1) rows0 heq r hr1

/-- Claim C9: for every current time and every integer weekOffset, the week
start computed by getWeekInfo falls on a Monday (JS getDay = 1) and the week
end is exactly weekStart plus 6 calendar days; getWeekInfo reports exactly
these two dates. -/
theorem claim_C9_monday (now : JSDate) (weekOffset : Int) :
    jsGetDay (weekStartDate now weekOffset) = 1
      ∧ (addDays (weekStartDate now weekOffset) 6).epochDay
          = (weekStartDate now weekOffset).epochDay + 6
      ∧ (getWeekInfo now weekOffset).weekStart
          = formatLocalDate (weekStartDate now weekOffset)
      ∧ (getWeekInfo now weekOffset).weekEnd
          = formatLocalDate (addDays (weekStartDate now weekOffset) 6) := by
  refine ⟨?_, rfl, rfl, rfl⟩
  unfold weekStartDate jsGetDay jsGetDayOfDay addDays
  dsimp only
  split
  next h =>
    simp only [beq_iff_eq] at h
    omega
  next h =>
    simp only [beq_iff_eq] at h
    omega

/-- Claim C8: for every weekday, membership in generateDates(weekday, ANY)
is exactly membership in generateDates(weekday, EVEN) or
generateDates(weekday, ODD), and the EVEN and ODD results are disjoint. -/
theorem claim_C8_partition (dayOfWeek z : Int) :
    (z ∈ generateDates dayOfWeek 0
        ↔ z ∈ generateDates dayOfWeek 1 ∨ z ∈ generateDates dayOfWeek 2)
      ∧ ¬(z ∈ generateDates dayOfWeek 1 ∧ z ∈ generateDates dayOfWeek 2) := by
  have hmem : ∀ w : Int, z ∈ generateDates dayOfWeek w ↔
      z ∈ semesterDays ∧ (jsGetDayOfDay z == dayOfWeek + 1) = true
        ∧ matchWeekType w (getWeekNumber z % 2 == 0) = true := by
    intro w
    simp [generateDates, List.mem_filter, Bool.and_eq_true, and_assoc]
  simp only [hmem, matchWeekType]
  cases h : (getWeekNumber z % 2 == 0) <;> simp [h]

/-- Claim C6 (counterexample): with the current time on 2023-09-01 (local
midnight) and weekOffset 0, getWeekInfo returns weekNumber 0 and isEven true,
not weekNumber 1 and isEven false as claimed (weekStart precedes the
academic-year start by 4 days, so diffDays = -4 and floor(-4 / 7) + 1 = 0). -/
theorem claim_C6_counterexample :
    (getWeekInfo c6now 0).weekNumber = 0
      ∧ (getWeekInfo c6now 0).isEven = true
      ∧ (getWeekInfo c6now 0).weekStart = "2023-08-28"
      ∧ (getWeekInfo c6now 0).weekEnd = "2023-09-03" := by
  refine ⟨rfl, rfl, ?_, ?_⟩ <;> decide

/-- Claim C6 (amended): at any moment of 2023-09-01 with weekOffset 0,
getWeekInfo returns weekStart 2023-08-28, weekEnd 2023-09-03, weekNumber 0
(not 1) and isEven true (not false). -/
theorem claim_C6_amended (t : Int) (h0 : 0 ≤ t) (h1 : t < 86400000) :
    getWeekInfo { epochDay := daysFromCivil 2023 9 1, msOfDay := t } 0
      = { weekNumber := 0, isEven := true, weekType := "чётная",
          weekStart := "2023-08-28", weekEnd := "2023-09-03" } := by
  have hws : weekStartDate { epochDay := daysFromCivil 2023 9 1, msOfDay := t } 0
      = { epochDay := 19597, msOfDay := t } := rfl
  have hay : academicYearStartOf { epochDay := daysFromCivil 2023 9 1, msOfDay := t }
      = { epochDay := 19601, msOfDay := 0 } := rfl
  have hdiff : (msVal { epochDay := 19597, msOfDay := t }
        - msVal { epochDay := 19601, msOfDay := 0 }).fdiv 86400000 = -4 := by
    unfold msVal
    dsimp only
    rw [Int.fdiv_eq_ediv _ (by decide : (0:Int) ≤ 86400000)]
    omega
  have hfmt1 : formatLocalDate { epochDay := (19597 : Int), msOfDay := t }
      = "2023-08-28" := rfl
  have hfmt2 : formatLocalDate (addDays { epochDay := (19597 : Int), msOfDay := t } 6)
      = "2023-09-03" := rfl
  simp only [getWeekInfo, hws, hay, hdiff, hfmt1, hfmt2]
  decide

/-- Witness for the amended C6: the hypotheses hold at local midnight and the
theorem applies there. -/
theorem claim_C6_witness :
    (0 : Int) ≤ 0 ∧ (0 : Int) < 86400000
      ∧ getWeekInfo { epochDay := daysFromCivil 2023 9 1, msOfDay := 0 } 0
          = { weekNumber := 0, isEven := true, weekType := "чётная",
              weekStart := "2023-08-28", weekEnd := "2023-09-03" } :=
  ⟨by decide, by decide, claim_C6_amended 0 (by decide) (by decide)⟩

/-- Claim C2 (code evaluation at the failing input): copying week 1 onto
week 1 for group 1, which has exactly one template tagged week 1, empties the
group's template set instead of leaving it unchanged — the DELETE of the
target week runs before the INSERT..SELECT re-reads the table, so when
fromParity = toParity the source rows are already gone. -/
theorem claim_C2_code_eval :
    (copyWeek c2req c2db).2.templates = []
      ∧ c2db.templates = [c2row]
      ∧ (copyWeek c2req c2db).1
          = .ok "Неделя скопирована (week 1 → 1)" := by
  refine ⟨rfl, rfl, rfl⟩

/-- Claim C7 (code evaluation at the failing input): each of copyWeek,
clearWeek and replaceTeacher succeeds with affected count 1 for admin 7, yet
the audit row it writes has NULL admin_id and NULL action_type (and NULL in
every other column), because admin.controller.js passes positional arguments
to a logChange that destructures a single options object. -/
theorem claim_C7_code_eval :
    (copyWeek c7copyReq c7db).2.audit
        = [{ admin_id := none, action_type := none, target_type := none,
             target_id := none, old_value := none, new_value := none }]
      ∧ (clearWeek c7clearReq c7db).2.audit
        = [{ admin_id := none, action_type := none, target_type := none,
             target_id := none, old_value := none, new_value := none }]
      ∧ (replaceTeacher c7replReq c7db).2.audit
        = [{ admin_id := none, action_type := none, target_type := none,
             target_id := none, old_value := none, new_value := none }]
      ∧ (clearWeek c7clearReq c7db).1 = .ok "Удалено 1 занятий"
      ∧ (replaceTeacher c7replReq c7db).1 = .ok "Заменено 1 занятий" := by
  refine ⟨rfl, rfl, rfl, rfl, rfl⟩

/-- Claim C1: whenever updateScheduleByDay answers with the transaction
failure response (any step inside the transaction failed — a malformed
lesson entry or an injected INSERT error), the persistent state is exactly
the state before the call: no new row persists and the pre-existing rows
for the (date, groupId) pair are untouched. -/
theorem claim_C1_rollback (parseDate : String → Option Int) (today : Int)
    (req : DayRequest) (db : ScheduleDb) (failAt : Option Nat)
    (h : (updateScheduleByDay parseDate today req db failAt).1
        = .serverError "Ошибка сервера при сохранении расписания") :
    (updateScheduleByDay parseDate today req db failAt).2 = db := by
  rcases hu : updateScheduleByDay parseDate today req db failAt with ⟨resp, db2⟩
  rw [hu] at h
  simp only at h ⊢
  simp only [updateScheduleByDay] at hu
  split at hu
  · cases hu; simp at h
  · split at hu
    · cases hu; simp at h
    · split at hu
      · cases hu; simp at h
      · split at hu
        · cases hu; rfl
        · cases hu; simp at h

/-- Witness for C1: an admin request whose second lesson entry is malformed
enters the transaction, fails, answers 500 and leaves the table unchanged. -/
theorem claim_C1_witness :
    (updateScheduleByDay c1parse 20000 c1req c1db none).1
        = .serverError "Ошибка сервера при сохранении расписания"
      ∧ (updateScheduleByDay c1parse 20000 c1req c1db none).2 = c1db :=
  ⟨rfl, claim_C1_rollback c1parse 20000 c1req c1db none rfl⟩

/-- Claim C4: an admin request passing the presence checks whose date parses
to a valid day strictly before today is rejected with the past-date
ValidationError (400) and the persistent state is untouched (the handler
returns before the transaction). -/
theorem claim_C4_past_date (parseDate : String → Option Int) (today : Int)
    (req : DayRequest) (db : ScheduleDb) (failAt : Option Nat) (d : Int)
    (hrole : req.role = "admin")
    (hdate : truthyStr req.date = true)
    (hgroup : truthyNum req.groupId = true)
    (hlessons : req.lessons.isNone = false)
    (hparse : parseDate (req.date.getD "") = some d)
    (hlt : d < today) :
    updateScheduleByDay parseDate today req db failAt
      = (.badRequest "Нельзя редактировать расписание прошедших дат", db) := by
  simp [updateScheduleByDay, hrole, hdate, hgroup, hlessons, jsDateLtDay,
    hparse, hlt]

/-- Witness for C4: a concrete past-date admin request is rejected with the
past-date message and the state is unchanged. -/
theorem claim_C4_witness :
    updateScheduleByDay c1parse 99999 c3req c1db none
      = (.badRequest "Нельзя редактировать расписание прошедших дат", c1db) :=
  claim_C4_past_date c1parse 99999 c3req c1db none 47119 rfl rfl rfl rfl rfl
    (by decide)

/-- When some entry of the list is malformed and no INSERT failure is
injected, the insert loop always throws. -/
theorem insertLessons_error_of_invalid (groupId : Int) (date : String)
    (ls : List LessonInput) (i : Nat)
    (h : ∃ l ∈ ls, lessonValid l = false) :
    insertLessons groupId date none ls i = .error () := by
  induction ls generalizing i with
  | nil =>
    rcases h with ⟨l, hl, _⟩
    cases hl
  | cons a rest ih =>
    rcases h with ⟨l, hl, hv⟩
    rcases List.mem_cons.mp hl with rfl | hmem
    · simp [insertLessons, hv]
    · cases ha : lessonValid a with
      | false => simp [insertLessons, ha]
      | true =>
        have hrest := ih (i + 1) ⟨l, hmem, hv⟩
        simp [insertLessons, ha, hrest]

/-- Claim C5 (counterexample): a lessons list whose only entry misses the
required subject field aborts the whole operation with no partial write, but
the response is the generic 500 server error, not a 400 ValidationError. -/
theorem claim_C5_counterexample :
    (updateScheduleByDay c1parse 20000 c5req c1db none).1
        = .serverError "Ошибка сервера при сохранении расписания"
      ∧ isValidationError (updateScheduleByDay c1parse 20000 c5req c1db none).1
          = false
      ∧ (updateScheduleByDay c1parse 20000 c5req c1db none).2 = c1db :=
  ⟨rfl, rfl, rfl⟩

/-- Claim C5 (amended): a lessons list containing an entry missing a required
field (startTime, endTime, subject, room or type) makes the operation abort
entirely with the generic 500 server error — not the ValidationError kind —
and performs no partial write: the stored rows are exactly as before. -/
theorem claim_C5_amended (parseDate : String → Option Int) (today : Int)
    (req : DayRequest) (db : ScheduleDb)
    (hrole : req.role = "admin")
    (hdate : truthyStr req.date = true)
    (hgroup : truthyNum req.groupId = true)
    (hlessons : req.lessons.isNone = false)
    (hguard : jsDateLtDay (parseDate (req.date.getD "")) today = false)
    (hbad : ∃ l ∈ req.lessons.getD [], lessonValid l = false) :
    updateScheduleByDay parseDate today req db none
      = (.serverError "Ошибка сервера при сохранении расписания", db) := by
  have herr := insertLessons_error_of_invalid (req.groupId.getD 0)
    (req.date.getD "") (req.lessons.getD []) 0 hbad
  simp [updateScheduleByDay, hrole, hdate, hgroup, hlessons, hguard, herr]

/-- Witness for the amended C5: the malformed-entry hypothesis holds for the
concrete request and the theorem applies there. -/
theorem claim_C5_witness :
    (∃ l ∈ c5req.lessons.getD [], lessonValid l = false)
      ∧ updateScheduleByDay c1parse 20000 c5req c1db none
          = (.serverError "Ошибка сервера при сохранении расписания", c1db) :=
  ⟨⟨c1badLesson, by decide, by decide⟩,
   claim_C5_amended c1parse 20000 c5req c1db rfl rfl rfl rfl rfl
     ⟨c1badLesson, by decide, by decide⟩⟩

/-- Claim C10: once the request passes the role and presence checks, the
past-date guard fires exactly when the date string parses to a valid day
strictly before today; an unparsable date (Invalid Date, whose comparison is
false) is not rejected by the guard and the request proceeds into the
delete/insert transaction (the outcome is the transaction's own success or
failure response, never the past-date rejection). -/
theorem claim_C10_guard (parseDate : String → Option Int) (today : Int)
    (req : DayRequest) (db : ScheduleDb) (failAt : Option Nat)
    (hrole : req.role = "admin")
    (hdate : truthyStr req.date = true)
    (hgroup : truthyNum req.groupId = true)
    (hlessons : req.lessons.isNone = false) :
    ((updateScheduleByDay parseDate today req db failAt).1
        = .badRequest "Нельзя редактировать расписание прошедших дат"
      ↔ ∃ d, parseDate (req.date.getD "") = some d ∧ d < today)
    ∧ (parseDate (req.date.getD "") = none →
        (updateScheduleByDay parseDate today req db failAt).1
            = .ok "Расписание на день успешно сохранено"
          ∨ (updateScheduleByDay parseDate today req db failAt).1
            = .serverError "Ошибка сервера при сохранении расписания") := by
  cases hp : parseDate (req.date.getD "") with
  | some d =>
    by_cases hd : d < today
    · have hresp : (updateScheduleByDay parseDate today req db failAt).1
          = .badRequest "Нельзя редактировать расписание прошедших дат" := by
        simp [updateScheduleByDay, hrole, hdate, hgroup, hlessons,
          jsDateLtDay, hp, hd]
      refine ⟨⟨fun _ => ⟨d, rfl, hd⟩, fun _ => hresp⟩, fun hnone => ?_⟩
      cases hnone
    · have hg : jsDateLtDay (parseDate (req.date.getD "")) today = false := by
        simp [jsDateLtDay, hp, hd]
      cases hins : insertLessons (req.groupId.getD 0) (req.date.getD "")
          failAt (req.lessons.getD []) 0 with
      | error e =>
        have hresp : (updateScheduleByDay parseDate today req db failAt).1
            = .serverError "Ошибка сервера при сохранении расписания" := by
          simp [updateScheduleByDay, hrole, hdate, hgroup, hlessons, hg, hins]
        refine ⟨⟨fun habs => ?_, fun hex => ?_⟩, fun _ => Or.inr hresp⟩
        · rw [hresp] at habs
          exact absurd habs (by decide)
        · rcases hex with ⟨d2, hd2, hlt⟩
          cases hd2
          exact absurd hlt hd
      | ok rows =>
        have hresp : (updateScheduleByDay parseDate today req db failAt).1
            = .ok "Расписание на день успешно сохранено" := by
          simp [updateScheduleByDay, hrole, hdate, hgroup, hlessons, hg, hins]
        refine ⟨⟨fun habs => ?_, fun hex => ?_⟩, fun _ => Or.inl hresp⟩
        · rw [hresp] at habs
          exact absurd habs (by decide)
        · rcases hex with ⟨d2, hd2, hlt⟩
          cases hd2
          exact absurd hlt hd
  | none =>
    have hg : jsDateLtDay (parseDate (req.date.getD "")) today = false := by
      simp [jsDateLtDay, hp]
    cases hins : insertLessons (req.groupId.getD 0) (req.date.getD "")
        failAt (req.lessons.getD []) 0 with
    | error e =>
      have hresp : (updateScheduleByDay parseDate today req db failAt).1
          = .serverError "Ошибка сервера при сохранении расписания" := by
        simp [updateScheduleByDay, hrole, hdate, hgroup, hlessons, hg, hins]
      refine ⟨⟨fun habs => ?_, fun hex => ?_⟩, fun _ => Or.inr hresp⟩
      · rw [hresp] at habs
        exact absurd habs (by decide)
      · rcases hex with ⟨d2, hd2, _⟩
        cases hd2
    | ok rows =>
      have hresp : (updateScheduleByDay parseDate today req db failAt).1
          = .ok "Расписание на день успешно сохранено" := by
        simp [updateScheduleByDay, hrole, hdate, hgroup, hlessons, hg, hins]
      refine ⟨⟨fun habs => ?_, fun hex => ?_⟩, fun _ => Or.inl hresp⟩
      · rw [hresp] at habs
        exact absurd habs (by decide)
      · rcases hex with ⟨d2, hd2, _⟩
        cases hd2

/-- Witness for C10: a concrete admin request whose date string never parses
passes the guard and the transaction answers (here: success). -/
theorem claim_C10_witness :
    truthyStr c3req.date = true
      ∧ (((updateScheduleByDay c10parse 20000 c3req c1db none).1
            = .badRequest "Нельзя редактировать расписание прошедших дат")
          ↔ ∃ d, c10parse (c3req.date.getD "") = some d ∧ d < 20000)
      ∧ (c10parse (c3req.date.getD "") = none →
          (updateScheduleByDay c10parse 20000 c3req c1db none).1
              = .ok "Расписание на день успешно сохранено"
            ∨ (updateScheduleByDay c10parse 20000 c3req c1db none).1
              = .serverError "Ошибка сервера при сохранении расписания") :=
  ⟨rfl, claim_C10_guard c10parse 20000 c3req c1db none rfl rfl rfl rfl⟩

/-- Claim C3: updateScheduleByDay is an idempotent full overwrite — when a
call succeeds, running the identical call again on the resulting state leaves
the stored lesson rows exactly as after the first call (the operation deletes
everything for the (date, groupId) pair and re-inserts the same list). -/
theorem claim_C3_idempotent (parseDate : String → Option Int) (today : Int)
    (req : DayRequest) (db : ScheduleDb)
    (h : (updateScheduleByDay parseDate today req db none).1
        = .ok "Расписание на день успешно сохранено") :
    (updateScheduleByDay parseDate today req
        (updateScheduleByDay parseDate today req db none).2 none).2.lessons
      = (updateScheduleByDay parseDate today req db none).2.lessons := by
  rcases hu : updateScheduleByDay parseDate today req db none with ⟨resp, db1⟩
  rw [hu] at h
  simp only at h ⊢
  simp only [updateScheduleByDay] at hu
  split at hu
  · cases hu; simp at h
  · split at hu
    · cases hu; simp at h
    · split at hu
      · cases hu; simp at h
      · split at hu
        · cases hu; simp at h
        · rename_i h1 h2 h3 hscrut newRows hins
          cases hu
          have hb1 : (req.role != "admin") = false := by
            revert h1; cases req.role != "admin" <;> simp
          have hb2 : (!truthyStr req.date || !truthyNum req.groupId
              || req.lessons.isNone) = false := by
            revert h2
            cases (!truthyStr req.date || !truthyNum req.groupId
              || req.lessons.isNone) <;> simp
          have hb3 : jsDateLtDay (parseDate (req.date.getD "")) today = false := by
            revert h3; cases jsDateLtDay (parseDate (req.date.getD "")) today <;> simp
          have hrows := insertLessons_ok_all_match (req.groupId.getD 0)
            (req.date.getD "") none (req.lessons.getD []) 0 newRows hins
          have hnil : newRows.filter
              (fun r => !matchesDay (req.date.getD "") (req.groupId.getD 0) r) = [] := by
            rw [List.filter_eq_nil_iff]
            intro r hr
            simp [hrows r hr]
          simp only [updateScheduleByDay, hb1, hb2, hb3, hins, Bool.false_eq_true,
            if_false]
          simp only [List.filter_append, List.filter_filter, Bool.and_self, hnil,
            List.append_nil]

/-- Witness for C3: a concrete successful admin call is idempotent — the
second identical call leaves the stored rows as after the first. -/
theorem claim_C3_witness :
    (updateScheduleByDay c1parse 20000 c3req c1db none).1
        = .ok "Расписание на день успешно сохранено"
      ∧ (updateScheduleByDay c1parse 20000 c3req
            (updateScheduleByDay c1parse 20000 c3req c1db none).2 none).2.lessons
          = (updateScheduleByDay c1parse 20000 c3req c1db none).2.lessons :=
  ⟨rfl, claim_C3_idempotent c1parse 20000 c3req c1db rfl⟩
